import Mathlib

/-!
Verification of the Online-Forever gateway client (src/main.py, src/config.py).

The development shallowly embeds the behaviour of `DiscordClient`:
the reconnect loop `maintain_presence` (main.py 126-180), the monitoring
receive loop inside it (145-160), the heartbeat task `_heartbeat_loop`
(182-188) and `_send_heartbeat` (190-194), the handshake senders
`_send_auth` (196-209) and `_send_custom_status` (211-228), the
backoff-decorated REST helpers `validate_token` (62-74) and
`update_display_name` (76-124), and the startup sequence in `main`
(230-261).

Stateful code is modelled by explicit state passing: the environment's
behaviour at each iteration of a loop is an element of a script list, and
running the loop over a script yields the list of externally visible
actions together with the final client state.
-/

namespace OnlineForever

/-- An inbound gateway message as consumed by the monitoring loop:
`data["op"]` and the optional sequence field `data["s"]`
(`none` models JSON null / absence). -/
structure Msg where
  op : Int
  s : Option Int
deriving DecidableEq

/-- An outbound gateway message produced by `_send_heartbeat`:
`{"op": 1, "d": self.last_sequence}`. -/
structure OutMsg where
  op : Int
  d : Option Int
deriving DecidableEq

/-- From `_send_heartbeat` (main.py 190-194): the heartbeat message carries
opcode 1 and, as payload, the current `last_sequence` (null when no
sequence has been received yet). -/
def heartbeatMessage (lastSequence : Option Int) : OutMsg :=
  { op := 1, d := lastSequence }

/-- main.py 174: `wait_time = min(retry_count * 5, 30)`. -/
def waitTime (retryCount : Nat) : Nat :=
  min (retryCount * 5) 30

/-- main.py 128: `max_retries = 5`. -/
def maxRetries : Nat := 5

/-- main.py 134: `self.heartbeat_interval = payload["d"]["heartbeat_interval"] / 1000`,
converting the hello payload's milliseconds to (fractional) seconds. -/
def heartbeatInterval (ms : Nat) : ℚ :=
  (ms : ℚ) / 1000

/-- From `_heartbeat_loop` (main.py 182-188): each iteration first checks the
shutdown flag at the loop head, then sends a heartbeat, then sleeps for
`heartbeat_interval`.  `iters` is the number of loop-head checks that
passed before the stop (shutdown flag or task cancellation) was observed;
`t` is the current time.  The result is the list of times at which
heartbeats are sent: the send happens before the first sleep, so the
first send is at the start time itself. -/
def hbTimes (interval : ℚ) (t : ℚ) : Nat → List ℚ
  | 0 => []
  | n + 1 => t :: hbTimes interval (t + interval) n

/-- Externally visible actions of `maintain_presence`. -/
inductive Action where
  /-- a connection attempt, `websockets.connect` (main.py 132) -/
  | connect
  /-- receiving the hello message with `heartbeat_interval` in ms (133-134) -/
  | recvHello (intervalMs : Nat)
  /-- a `ws.send` of a message with the given opcode: 2 from `_send_auth`,
      3 from `_send_custom_status` -/
  | send (op : Int)
  /-- the call `asyncio.create_task(self._heartbeat_loop(ws))` (141) -/
  | startHB
  /-- one message received and processed by the monitoring loop (147-148) -/
  | recvMsg (m : Msg)
  /-- the call `heartbeat_task.cancel()` (167) -/
  | cancelHB
  /-- awaiting / joining the heartbeat task; `maintain_presence` never
      emits this: it cancels the task without awaiting it -/
  | joinHB
  /-- the websocket context manager closing the connection (132) -/
  | closeSession
  /-- the call `asyncio.sleep(wait_time)` (177) -/
  | sleep (t : Nat)
  /-- the `Max retries reached. Exiting...` report (180) -/
  | reportExhaustion
deriving DecidableEq

/-- The monitoring loop body (main.py 145-160) over a list of inbound
messages: op 11 (heartbeat ACK) → `continue`; op 7 (reconnect) →
`break`; otherwise, a non-null `s` updates `last_sequence`.  Returns the
receive actions, the final `last_sequence`, and whether the loop ended by
the op-7 `break` (as opposed to running out of messages, which models the
connection closing or a later exception). -/
def monitorRun (seq : Option Int) : List Msg → List Action × Option Int × Bool
  | [] => ([], seq, false)
  | m :: rest =>
    if m.op = 11 then
      let r := monitorRun seq rest
      (.recvMsg m :: r.1, r.2)
    else if m.op = 7 then
      ([.recvMsg m], seq, true)
    else
      match m.s with
      | some v =>
        let r := monitorRun (some v) rest
        (.recvMsg m :: r.1, r.2)
      | none =>
        let r := monitorRun seq rest
        (.recvMsg m :: r.1, r.2)

/-- The mutable client state touched by `maintain_presence`
(`retry_count` is a local of the function; the rest are fields of
`DiscordClient`). -/
structure St where
  retryCount : Nat
  lastSeq : Option Int
  hbIntervalMs : Option Nat
  shutdown : Bool
deriving DecidableEq

/-- The state at entry to `maintain_presence` on a fresh client:
`retry_count = 0`, `last_sequence = None`, no interval yet, shutdown
event unset. -/
def st0 : St :=
  { retryCount := 0, lastSeq := none, hbIntervalMs := none, shutdown := false }

/-- Where the connect / hello / identify phase of an iteration raises
(all cases are caught by the outer `except Exception` at main.py 169):

* `atConnect`: `websockets.connect` itself fails (132) — the connection
  never opens, nothing is transmitted;
* `atHello`: the connection opened but `ws.recv()` or the hello parsing
  at 133-134 raises; the context manager closes the session;
* `atSendAuth ms`: the hello (interval `ms`) was processed and
  `self.heartbeat_interval` assigned, but `_send_auth` (137) raises —
  the identify frame is not transmitted;
* `atSendStatus ms`: `_send_auth` completed, so the op-2 identify was
  transmitted, and then `_send_custom_status` (138) raises — the op-3
  presence update is never sent on this connection. -/
inductive FailPoint where
  | atConnect
  | atHello
  | atSendAuth (helloMs : Nat)
  | atSendStatus (helloMs : Nat)
deriving DecidableEq

/-- The environment's behaviour for one iteration of the outer `while`
loop of `maintain_presence`:

* `fail p`: the connect / hello / identify phase raises at point `p`
  (caught by the outer `except Exception` at main.py 169);
* `ok ms msgs crashed`: the connection opens, the hello carries
  `heartbeat_interval = ms`; identification succeeds and the monitoring
  loop processes `msgs`.  If no op-7 break occurs, the loop ends either
  with `websockets.ConnectionClosed` (caught at 162, `crashed = false`)
  or with another exception that propagates to the outer handler
  (`crashed = true`). -/
inductive ConnAttempt where
  | fail (p : FailPoint)
  | ok (helloMs : Nat) (msgs : List Msg) (crashed : Bool)
deriving DecidableEq

/-- The actions emitted by a failing iteration: whatever was completed
before the exception, then the context-manager close when the connection
had opened, then the outer handler's `asyncio.sleep(wait_time)` with the
incremented counter.  The heartbeat task does not exist yet on any of
these paths (it is created at 141), so no cancel appears. -/
def failTrace (st : St) : FailPoint → List Action
  | .atConnect => [.connect, .sleep (waitTime (st.retryCount + 1))]
  | .atHello => [.connect, .closeSession, .sleep (waitTime (st.retryCount + 1))]
  | .atSendAuth ms =>
    [.connect, .recvHello ms, .closeSession, .sleep (waitTime (st.retryCount + 1))]
  | .atSendStatus ms =>
    [.connect, .recvHello ms, .send 2, .closeSession,
     .sleep (waitTime (st.retryCount + 1))]

/-- The state after a failing iteration: `retry_count` is incremented in
every case; `self.heartbeat_interval` keeps the value assigned at 134
when the hello had been processed before the failure. -/
def failState (st : St) : FailPoint → St
  | .atConnect => { st with retryCount := st.retryCount + 1 }
  | .atHello => { st with retryCount := st.retryCount + 1 }
  | .atSendAuth ms => { st with retryCount := st.retryCount + 1, hbIntervalMs := some ms }
  | .atSendStatus ms => { st with retryCount := st.retryCount + 1, hbIntervalMs := some ms }

/-- One iteration of the outer `while` loop of `maintain_presence`
(main.py 130-177), returning the emitted actions and the updated state.
On `fail p`, the actions completed before the raise are emitted and the
outer handler increments `retry_count` and sleeps `wait_time`.  On `ok`,
the trace is: connect, receive hello, send identify (op 2), send
presence update (op 3), start the heartbeat task, the monitoring
receives, then the `finally` block cancels the heartbeat task (without
awaiting it) and the context manager closes the session; when the
monitoring loop raised a non-`ConnectionClosed` exception (`crashed` and
no op-7 break), the outer handler additionally increments `retry_count`
and sleeps. -/
def iterActions (st : St) : ConnAttempt → List Action × St
  | .fail p => (failTrace st p, failState st p)
  | .ok ms msgs crashed =>
    let mr := monitorRun st.lastSeq msgs
    let base := [.connect, .recvHello ms, .send 2, .send 3, .startHB]
      ++ mr.1 ++ [.cancelHB, .closeSession]
    let st1 := { st with lastSeq := mr.2.1, hbIntervalMs := some ms }
    if crashed = true ∧ mr.2.2 = false then
      let r := st.retryCount + 1
      (base ++ [.sleep (waitTime r)], { st1 with retryCount := r })
    else
      (base, st1)

/-- The outer `while retry_count < max_retries and not shutdown` loop of
`maintain_presence`, driven by a script of per-iteration environment
behaviours, followed by the post-loop exhaustion report (main.py
179-180).  An empty remaining script means the run is observed only this
far; the exhaustion report is emitted exactly when the loop has exited
with the shutdown event unset (which the loop condition only allows once
`retry_count` has reached `max_retries`). -/
def run (st : St) : List ConnAttempt → List Action × St
  | [] =>
    if maxRetries ≤ st.retryCount ∧ st.shutdown = false then
      ([.reportExhaustion], st)
    else
      ([], st)
  | a :: rest =>
    if st.retryCount < maxRetries ∧ st.shutdown = false then
      ((iterActions st a).1 ++ (run (iterActions st a).2 rest).1,
       (run (iterActions st a).2 rest).2)
    else
      if st.shutdown = false then ([.reportExhaustion], st) else ([], st)

/-- Recognises the send of a given opcode in a trace. -/
def isSend (opv : Int) : Action → Bool
  | .send o => o == opv
  | _ => false

/-- Recognises a connection attempt in a trace. -/
def isConnect : Action → Bool
  | .connect => true
  | _ => false

/-- Number of sends of opcode `opv` in a trace. -/
def countSend (opv : Int) (tr : List Action) : Nat :=
  (tr.filter (isSend opv)).length

/-- Number of connection attempts in a trace. -/
def countConnect (tr : List Action) : Nat :=
  (tr.filter isConnect).length

/-- The sequence values that the monitoring loop actually writes into
`last_sequence`, in order: the non-null `s` fields of the processed
messages, skipping op-11 messages (whose `continue` precedes the update)
and stopping at the first op-7 message (whose `break` precedes it). -/
def seqUpdates : List Msg → List Int
  | [] => []
  | m :: rest =>
    if m.op = 11 then
      seqUpdates rest
    else if m.op = 7 then
      []
    else
      match m.s with
      | some v => v :: seqUpdates rest
      | none => seqUpdates rest

/-- Applies a list of sequence writes to an initial `last_sequence`:
the result is the last write when there is one, otherwise the initial
value. -/
def lastUpd (s : Option Int) : List Int → Option Int
  | [] => s
  | v :: rest => lastUpd (some v) rest

/-- The `backoff.on_exception(backoff.expo, aiohttp.ClientError, max_tries=n)`
decorator: call `f` on successive environment outcomes, retrying only
when the call raises (returns `Except.error`), making at most `tries`
calls; the last allowed call's error propagates.  Returns the final
result together with the number of calls actually made, or `none` when
the outcome script is too short to decide the run. -/
def backoffRetry {α ε β : Type} (f : α → Except ε β) :
    Nat → List α → Option (Except ε β × Nat)
  | _, [] => none
  | 0, _ :: _ => none
  | 1, o :: _ => some (f o, 1)
  | n + 2, o :: rest =>
    match f o with
    | .ok b => some (.ok b, 1)
    | .error _ =>
      match backoffRetry f (n + 1) rest with
      | some (r, k) => some (r, k + 1)
      | none => none

/-- The outcome of one HTTP GET in `validate_token` (main.py 68-71). -/
inductive ReqOutcome where
  /-- the request succeeds and the status is OK -/
  | ok
  /-- the request raises `aiohttp.ClientError` (connection failure, or
      `raise_for_status` on an error status) -/
  | clientError
deriving DecidableEq

/-- The body of `validate_token` (main.py 63-74): the `try` block catches
`aiohttp.ClientError` and returns `False`, so a failed attempt never
raises out of the call — the decorator never observes an exception. -/
def validateTokenCall : ReqOutcome → Except Unit Bool
  | .ok => .ok true
  | .clientError => .ok false

/-- Function `validate_token` with its `max_tries=5` backoff decorator (main.py
62-74), as a function of the per-attempt outcomes. -/
def validateToken (outs : List ReqOutcome) : Option (Except Unit Bool × Nat) :=
  backoffRetry validateTokenCall 5 outs

/-- The outcome of one HTTP PATCH in `update_display_name`
(main.py 107-120). -/
inductive PatchOutcome where
  /-- the request succeeds with a non-error status -/
  | ok
  /-- the response status is 400 (main.py 112-115) -/
  | badRequest
  /-- the response has another error status, so `raise_for_status`
      raises `aiohttp.ClientResponseError` -/
  | httpError
  /-- the request itself raises `aiohttp.ClientError` -/
  | connError
deriving DecidableEq

/-- The body of `update_display_name` (main.py 77-124): a 400 response
returns `False` without raising; every other `aiohttp.ClientError` is
caught by the `except` clause and also returns `False`.  No path raises
`aiohttp.ClientError` out of the call. -/
def updateDisplayNameCall : PatchOutcome → Except Unit Bool
  | .ok => .ok true
  | .badRequest => .ok false
  | .httpError => .ok false
  | .connError => .ok false

/-- Function `update_display_name` with its `max_tries=3` backoff decorator
(main.py 76-124), as a function of the per-attempt outcomes. -/
def updateDisplayName (outs : List PatchOutcome) : Option (Except Unit Bool × Nat) :=
  backoffRetry updateDisplayNameCall 3 outs

/-- The top-level phases of `main` (main.py 230-261). -/
inductive MainStep where
  | validate
  | updateName
  | presence
deriving DecidableEq

/-- The control flow of `main` (main.py 241-261): validate the token and
return early when that yields `False`; otherwise, when a display name is
configured, attempt the display-name update — whose boolean outcome
`updateOk` only changes the log line, never the control flow — and in
every case go on to `maintain_presence`. -/
def mainSteps (validateOk hasDisplayName updateOk : Bool) : List MainStep :=
  if validateOk then
    MainStep.validate ::
      ((if hasDisplayName then [MainStep.updateName] else []) ++ [MainStep.presence])
  else
    [MainStep.validate]

/-! ### Helper lemmas -/

lemma hbTimes_length (i : ℚ) : ∀ (n : Nat) (t : ℚ), (hbTimes i t n).length = n := by
  intro n
  induction n with
  | zero => intro t; rfl
  | succ n ih => intro t; simp [hbTimes, ih]

lemma hbTimes_get (i : ℚ) : ∀ (n k : Nat) (t : ℚ), k < n →
    (hbTimes i t n)[k]? = some (t + k * i) := by
  intro n
  induction n with
  | zero => intro k t h; exact absurd h (Nat.not_lt_zero k)
  | succ n ih =>
    intro k t h
    cases k with
    | zero => simp [hbTimes]
    | succ k =>
      have h' : k < n := Nat.lt_of_succ_lt_succ h
      rw [hbTimes, List.getElem?_cons_succ, ih k (t + i) h']
      congr 1
      push_cast
      ring

lemma monitorRun_acts : ∀ (msgs : List Msg) (s : Option Int) (a : Action),
    a ∈ (monitorRun s msgs).1 → ∃ m, a = Action.recvMsg m := by
  intro msgs
  induction msgs with
  | nil => intro s a h; simp [monitorRun] at h
  | cons m rest ih =>
    intro s a h
    by_cases h11 : m.op = 11
    · rw [monitorRun] at h
      simp only [h11, if_pos, if_true] at h
      rcases List.mem_cons.mp h with h | h
      · exact ⟨m, h⟩
      · exact ih _ _ h
    · by_cases h7 : m.op = 7
      · rw [monitorRun] at h
        simp only [h11, h7, if_false, if_true] at h
        rcases List.mem_cons.mp h with h | h
        · exact ⟨m, h⟩
        · simp at h
      · rw [monitorRun] at h
        simp only [h11, h7, if_false] at h
        cases hs : m.s with
        | some v =>
          rw [hs] at h
          rcases List.mem_cons.mp h with h | h
          · exact ⟨m, h⟩
          · exact ih _ _ h
        | none =>
          rw [hs] at h
          rcases List.mem_cons.mp h with h | h
          · exact ⟨m, h⟩
          · exact ih _ _ h

lemma monitorRun_seq : ∀ (msgs : List Msg) (s : Option Int),
    (monitorRun s msgs).2.1 = lastUpd s (seqUpdates msgs) := by
  intro msgs
  induction msgs with
  | nil => intro s; rfl
  | cons m rest ih =>
    intro s
    by_cases h11 : m.op = 11
    · simp [monitorRun, seqUpdates, h11, ih]
    · by_cases h7 : m.op = 7
      · simp [monitorRun, seqUpdates, h11, h7, lastUpd]
      · cases hs : m.s with
        | some v => simp [monitorRun, seqUpdates, h11, h7, hs, ih, lastUpd]
        | none => simp [monitorRun, seqUpdates, h11, h7, hs, ih]

lemma monitorRun_break : ∀ (pre : List Msg) (s : Option Int) (m : Msg) (post : List Msg),
    m.op = 7 → (∀ x ∈ pre, x.op ≠ 7) →
    (monitorRun s (pre ++ m :: post)).1 = pre.map Action.recvMsg ++ [Action.recvMsg m]
    ∧ (monitorRun s (pre ++ m :: post)).2.2 = true := by
  intro pre
  induction pre with
  | nil =>
    intro s m post hm _
    have h11 : ¬ m.op = 11 := by rw [hm]; decide
    rw [List.nil_append]
    constructor
    · rw [monitorRun]; simp [h11, hm]
    · rw [monitorRun]; simp [h11, hm]
  | cons x xs ih =>
    intro s m post hm hpre
    have hx7 : ¬ x.op = 7 := hpre x (List.mem_cons_self x xs)
    have hxs : ∀ y ∈ xs, y.op ≠ 7 := fun y hy => hpre y (List.mem_cons_of_mem x hy)
    by_cases h11 : x.op = 11
    · constructor
      · rw [List.cons_append, monitorRun]
        simp only [h11, if_true]
        rw [List.map_cons, List.cons_append]
        exact congrArg _ (ih s m post hm hxs).1
      · rw [List.cons_append, monitorRun]
        simp only [h11, if_true]
        exact (ih s m post hm hxs).2
    · cases hs : x.s with
      | some v =>
        constructor
        · rw [List.cons_append, monitorRun]
          simp only [h11, hx7, if_false, hs]
          rw [List.map_cons, List.cons_append]
          exact congrArg _ (ih (some v) m post hm hxs).1
        · rw [List.cons_append, monitorRun]
          simp only [h11, hx7, if_false, hs]
          exact (ih (some v) m post hm hxs).2
      | none =>
        constructor
        · rw [List.cons_append, monitorRun]
          simp only [h11, hx7, if_false, hs]
          rw [List.map_cons, List.cons_append]
          exact congrArg _ (ih s m post hm hxs).1
        · rw [List.cons_append, monitorRun]
          simp only [h11, hx7, if_false, hs]
          exact (ih s m post hm hxs).2

lemma iter_ok_trace (st : St) (ms : Nat) (msgs : List Msg) (crashed : Bool) :
    (iterActions st (.ok ms msgs crashed)).1
      = [Action.connect, .recvHello ms, .send 2, .send 3, .startHB]
        ++ (monitorRun st.lastSeq msgs).1
        ++ [Action.cancelHB, Action.closeSession]
        ++ (if crashed = true ∧ (monitorRun st.lastSeq msgs).2.2 = false
            then [Action.sleep (waitTime (st.retryCount + 1))] else []) := by
  rw [iterActions]
  split
  · simp [List.append_assoc]
  · simp

lemma iter_ok_state (st : St) (ms : Nat) (msgs : List Msg) (crashed : Bool) :
    (iterActions st (.ok ms msgs crashed)).2
      = { st with
          lastSeq := (monitorRun st.lastSeq msgs).2.1,
          hbIntervalMs := some ms,
          retryCount :=
            if crashed = true ∧ (monitorRun st.lastSeq msgs).2.2 = false
            then st.retryCount + 1 else st.retryCount } := by
  rw [iterActions]
  split
  · rfl
  · rfl

lemma iter_fail_trace (st : St) (p : FailPoint) :
    (iterActions st (.fail p)).1 = failTrace st p :=
  rfl

lemma iter_fail_state (st : St) (p : FailPoint) :
    (iterActions st (.fail p)).2 = failState st p :=
  rfl

lemma countSend_nil (o : Int) : countSend o [] = 0 := rfl

lemma countSend_cons (o : Int) (a : Action) (l : List Action) :
    countSend o (a :: l) = (if isSend o a then 1 else 0) + countSend o l := by
  rw [countSend, countSend, List.filter_cons]
  split
  · simp [Nat.add_comm]
  · simp

lemma countSend_append (o : Int) (l1 l2 : List Action) :
    countSend o (l1 ++ l2) = countSend o l1 + countSend o l2 := by
  simp [countSend, List.filter_append]

lemma countConnect_nil : countConnect [] = 0 := rfl

lemma countConnect_cons (a : Action) (l : List Action) :
    countConnect (a :: l) = (if isConnect a then 1 else 0) + countConnect l := by
  rw [countConnect, countConnect, List.filter_cons]
  split
  · simp [Nat.add_comm]
  · simp

lemma countConnect_append (l1 l2 : List Action) :
    countConnect (l1 ++ l2) = countConnect l1 + countConnect l2 := by
  simp [countConnect, List.filter_append]

lemma monitorRun_filter (p : Action → Bool) (hp : ∀ m, p (Action.recvMsg m) = false)
    (msgs : List Msg) (s : Option Int) : (monitorRun s msgs).1.filter p = [] := by
  refine List.filter_eq_nil_iff.mpr ?_
  intro a ha
  obtain ⟨m, rfl⟩ := monitorRun_acts msgs s a ha
  simp [hp]

lemma monitorRun_countSend (o : Int) (msgs : List Msg) (s : Option Int) :
    countSend o (monitorRun s msgs).1 = 0 := by
  rw [countSend, monitorRun_filter (isSend o) (fun _ => rfl)]
  rfl

lemma monitorRun_countConnect (msgs : List Msg) (s : Option Int) :
    countConnect (monitorRun s msgs).1 = 0 := by
  rw [countConnect, monitorRun_filter isConnect (fun _ => rfl)]
  rfl

lemma monitorRun_no_join (msgs : List Msg) (s : Option Int) :
    Action.joinHB ∉ (monitorRun s msgs).1 := by
  intro h
  obtain ⟨m, hm⟩ := monitorRun_acts msgs s _ h
  exact Action.noConfusion hm

lemma iter_shutdown (st : St) (a : ConnAttempt) :
    (iterActions st a).2.shutdown = st.shutdown := by
  cases a with
  | fail q => cases q <;> rfl
  | ok ms msgs cr => rw [iter_ok_state]

lemma iter_retry_mono (st : St) (a : ConnAttempt) :
    st.retryCount ≤ (iterActions st a).2.retryCount := by
  cases a with
  | fail q => cases q <;> exact Nat.le_succ _
  | ok ms msgs cr =>
    rw [iter_ok_state]
    dsimp
    split <;> omega

lemma iter_head (st : St) (a : ConnAttempt) :
    (iterActions st a).1.head? = some Action.connect := by
  cases a with
  | fail q => cases q <;> rfl
  | ok ms msgs cr => rw [iter_ok_trace]; rfl

lemma iter_no_join (st : St) (a : ConnAttempt) : Action.joinHB ∉ (iterActions st a).1 := by
  cases a with
  | fail q => cases q <;> simp [iterActions, failTrace]
  | ok ms msgs cr =>
    rw [iter_ok_trace]
    intro h
    rcases List.mem_append.mp h with h | h
    · rcases List.mem_append.mp h with h | h
      · rcases List.mem_append.mp h with h | h
        · simp at h
        · exact absurd h (monitorRun_no_join msgs st.lastSeq)
      · simp at h
    · revert h
      split <;> simp

lemma run_cons (st : St) (a : ConnAttempt) (rest : List ConnAttempt)
    (h1 : st.retryCount < maxRetries) (h2 : st.shutdown = false) :
    run st (a :: rest)
      = ((iterActions st a).1 ++ (run (iterActions st a).2 rest).1,
         (run (iterActions st a).2 rest).2) := by
  rw [run, if_pos ⟨h1, h2⟩]

lemma run_no_join : ∀ (script : List ConnAttempt) (st : St),
    Action.joinHB ∉ (run st script).1 := by
  intro script
  induction script with
  | nil =>
    intro st
    rw [run]
    split
    · simp
    · simp
  | cons a rest ih =>
    intro st
    rw [run]
    split
    · intro h
      rcases List.mem_append.mp h with h | h
      · exact iter_no_join st a h
      · exact ih _ h
    · split <;> simp

lemma run_retry_mono : ∀ (script : List ConnAttempt) (st : St),
    st.retryCount ≤ (run st script).2.retryCount := by
  intro script
  induction script with
  | nil =>
    intro st
    rw [run]
    split <;> exact Nat.le_refl _
  | cons a rest ih =>
    intro st
    rw [run]
    split
    · exact Nat.le_trans (iter_retry_mono st a) (ih _)
    · split <;> exact Nat.le_refl _

lemma iter_ok_countSend2 (st : St) (ms : Nat) (msgs : List Msg) (cr : Bool) :
    countSend 2 (iterActions st (.ok ms msgs cr)).1 = 1 := by
  rw [iter_ok_trace, countSend_append, countSend_append, countSend_append,
      monitorRun_countSend]
  have h1 : countSend 2
      [Action.connect, .recvHello ms, .send 2, .send 3, .startHB] = 1 := by
    simp [countSend_cons, countSend_nil, isSend]
  have h2 : countSend 2 [Action.cancelHB, Action.closeSession] = 0 := rfl
  have h3 : countSend 2
      (if cr = true ∧ (monitorRun st.lastSeq msgs).2.2 = false
       then [Action.sleep (waitTime (st.retryCount + 1))] else []) = 0 := by
    split <;> rfl
  rw [h1, h2, h3]

lemma iter_ok_countSend3 (st : St) (ms : Nat) (msgs : List Msg) (cr : Bool) :
    countSend 3 (iterActions st (.ok ms msgs cr)).1 = 1 := by
  rw [iter_ok_trace, countSend_append, countSend_append, countSend_append,
      monitorRun_countSend]
  have h1 : countSend 3
      [Action.connect, .recvHello ms, .send 2, .send 3, .startHB] = 1 := by
    simp [countSend_cons, countSend_nil, isSend]
  have h2 : countSend 3 [Action.cancelHB, Action.closeSession] = 0 := rfl
  have h3 : countSend 3
      (if cr = true ∧ (monitorRun st.lastSeq msgs).2.2 = false
       then [Action.sleep (waitTime (st.retryCount + 1))] else []) = 0 := by
    split <;> rfl
  rw [h1, h2, h3]

lemma iter_send2_le_one (st : St) (a : ConnAttempt) :
    countSend 2 (iterActions st a).1 ≤ 1 := by
  cases a with
  | fail q => cases q <;> simp [iterActions, failTrace, countSend_cons, countSend_nil, isSend]
  | ok ms msgs cr => rw [iter_ok_countSend2]

lemma iter_send3_le_send2 (st : St) (a : ConnAttempt) :
    countSend 3 (iterActions st a).1 ≤ countSend 2 (iterActions st a).1 := by
  cases a with
  | fail q => cases q <;> simp [iterActions, failTrace, countSend_cons, countSend_nil, isSend]
  | ok ms msgs cr => rw [iter_ok_countSend2, iter_ok_countSend3]

lemma iter_countConnect (st : St) (a : ConnAttempt) :
    countConnect (iterActions st a).1 = 1 := by
  cases a with
  | fail q => cases q <;> rfl
  | ok ms msgs cr =>
    rw [iter_ok_trace, countConnect_append, countConnect_append, countConnect_append,
        monitorRun_countConnect]
    have h1 : countConnect
        [Action.connect, .recvHello ms, .send 2, .send 3, .startHB] = 1 := by
      simp [countConnect_cons, countConnect_nil, isConnect]
    have h3 : countConnect
        (if cr = true ∧ (monitorRun st.lastSeq msgs).2.2 = false
         then [Action.sleep (waitTime (st.retryCount + 1))] else []) = 0 := by
      split <;> rfl
    rw [h1, h3]
    rfl

lemma run_send3_le_send2 : ∀ (script : List ConnAttempt) (st : St),
    countSend 3 (run st script).1 ≤ countSend 2 (run st script).1 := by
  intro script
  induction script with
  | nil =>
    intro st
    rw [run]
    split <;> exact Nat.le_refl _
  | cons a rest ih =>
    intro st
    rw [run]
    split
    · rw [countSend_append, countSend_append]
      exact Nat.add_le_add (iter_send3_le_send2 st a) (ih _)
    · split <;> exact Nat.le_refl _

lemma run_send2_le_connect : ∀ (script : List ConnAttempt) (st : St),
    countSend 2 (run st script).1 ≤ countConnect (run st script).1 := by
  intro script
  induction script with
  | nil =>
    intro st
    rw [run]
    split <;> exact Nat.le_refl _
  | cons a rest ih =>
    intro st
    rw [run]
    split
    · rw [countSend_append, countConnect_append, iter_countConnect]
      have hle := iter_send2_le_one st a
      have hrec := ih (iterActions st a).2
      omega
    · split <;> exact Nat.le_refl _

lemma run_head (st : St) (a : ConnAttempt) (rest : List ConnAttempt)
    (h1 : st.retryCount < maxRetries) (h2 : st.shutdown = false) :
    (run st (a :: rest)).1.head? = some Action.connect := by
  rw [run_cons st a rest h1 h2]
  cases a with
  | fail q => cases q <;> rfl
  | ok ms msgs cr => rw [iter_ok_trace]; rfl

/-! ### Claim theorems -/

/-- Claim C1: for every attempt count n in [1,5], the wait slept after the
n-th consecutive connection failure is min(n*5, 30) time units, and once
the retry counter reaches 5 with no successful identify in between,
`maintain_presence` exits the loop with the exhaustion report, making
exactly 5 connection attempts and never a 6th. -/
theorem C1_reconnect_policy_cap :
    (∀ n : Nat, 1 ≤ n → n ≤ 5 →
      (iterActions { st0 with retryCount := n - 1 } (.fail .atConnect)).1
        = [Action.connect, Action.sleep (min (n * 5) 30)])
    ∧ (run st0 (List.replicate 6 (.fail .atConnect))).1
        = [Action.connect, Action.sleep 5, Action.connect, Action.sleep 10,
           Action.connect, Action.sleep 15, Action.connect, Action.sleep 20,
           Action.connect, Action.sleep 25, Action.reportExhaustion]
    ∧ countConnect (run st0 (List.replicate 6 (.fail .atConnect))).1 = 5 := by
  refine ⟨?_, by decide, by decide⟩
  intro n h1 _
  show [Action.connect, Action.sleep (waitTime (n - 1 + 1))]
      = [Action.connect, Action.sleep (min (n * 5) 30)]
  have h : n - 1 + 1 = n := by omega
  rw [h]
  rfl

/-- Witness for C1 at n = 3: the wait after the third consecutive failure
is min(15, 30). -/
theorem C1_reconnect_policy_cap_witness :
    (iterActions { st0 with retryCount := 3 - 1 } (.fail .atConnect)).1
      = [Action.connect, Action.sleep (min (3 * 5) 30)] :=
  C1_reconnect_policy_cap.1 3 (by decide) (by decide)

/-- Claim C2 counterexample: with heartbeat_interval = 41250 ms the first
heartbeat is sent at time 0, immediately at scheduler start, not 41.25
time units later: `_heartbeat_loop` sends before its first sleep. -/
theorem C2_first_heartbeat_cex :
    (hbTimes (heartbeatInterval 41250) 0 1).head? = some 0
    ∧ ¬ (heartbeatInterval 41250 ≤ 0) := by
  constructor
  · rfl
  · rw [heartbeatInterval]
    norm_num

/-- Claim C2 (amended): with heartbeat_interval = 41250 the scheduler
sends its k-th heartbeat exactly k * 41.25 time units after start — the
first one immediately at start rather than one interval later — and
keeps sending once per interval until stopped (one send for each loop
iteration that passes the shutdown check). -/
theorem C2_heartbeat_schedule :
    (∀ n k : Nat, k < n →
      (hbTimes (heartbeatInterval 41250) 0 n)[k]? = some ((k : ℚ) * (165 / 4)))
    ∧ (∀ n : Nat, (hbTimes (heartbeatInterval 41250) 0 n).length = n)
    ∧ heartbeatInterval 41250 = 165 / 4 := by
  have hint : heartbeatInterval 41250 = 165 / 4 := by
    rw [heartbeatInterval]
    norm_num
  refine ⟨?_, fun n => hbTimes_length _ n 0, hint⟩
  intro n k hk
  rw [hbTimes_get _ n k 0 hk, hint, zero_add]

/-- Witness for C2: the second heartbeat (k = 1) goes out 41.25 units
after start. -/
theorem C2_heartbeat_schedule_witness :
    (hbTimes (heartbeatInterval 41250) 0 2)[1]? = some (((1 : Nat) : ℚ) * (165 / 4)) :=
  C2_heartbeat_schedule.1 2 1 (by decide)

/-- Claim C8: every heartbeat message built by `_send_heartbeat` has
opcode 1 and payload equal to the current `last_sequence`, which is null
when no sequence number has been received yet on the session. -/
theorem C8_heartbeat_payload :
    (∀ s : Option Int, (heartbeatMessage s).op = 1 ∧ (heartbeatMessage s).d = s)
    ∧ (heartbeatMessage none).d = none :=
  ⟨fun _ => ⟨rfl, rfl⟩, rfl⟩

/-- Claim C3 counterexample: in the run where the first connection is
told to reconnect (op 7) and the next connection attempt fails, the
trace cancels the heartbeat task and then makes a new connection attempt
with no join/await of the task anywhere in the whole trace:
`maintain_presence` only calls `heartbeat_task.cancel()` in its
`finally` block and never awaits the cancelled task. -/
theorem C3_no_join_cex :
    (run st0 [.ok 41250 [Msg.mk 7 none] false, .fail .atConnect]).1
      = [Action.connect, Action.recvHello 41250, Action.send 2, Action.send 3,
         Action.startHB, Action.recvMsg (Msg.mk 7 none), Action.cancelHB,
         Action.closeSession, Action.connect, Action.sleep 5]
    ∧ Action.joinHB ∉ (run st0 [.ok 41250 [Msg.mk 7 none] false, .fail .atConnect]).1 := by
  decide

/-- Claim C3 (amended): once the heartbeat scheduler observes the stop
signal it performs zero further sends (no send at or past the stop
iteration); before a new connection handle is created the pending
heartbeat task is cancelled — every successful-connection iteration
emits the cancellation, and every iteration makes exactly one connection
attempt, at its very start — but the cancelled task is never
awaited/joined: no run trace ever contains a join. -/
theorem C3_stop_and_cancel :
    (∀ (i t : ℚ) (n k : Nat), n ≤ k → (hbTimes i t n)[k]? = none)
    ∧ (∀ (st : St) (script : List ConnAttempt), Action.joinHB ∉ (run st script).1)
    ∧ (∀ (st : St) (ms : Nat) (msgs : List Msg) (cr : Bool),
        Action.cancelHB ∈ (iterActions st (.ok ms msgs cr)).1)
    ∧ (∀ (st : St) (a : ConnAttempt),
        countConnect (iterActions st a).1 = 1
        ∧ (iterActions st a).1.head? = some Action.connect) := by
  refine ⟨?_, fun st script => run_no_join script st, ?_,
    fun st a => ⟨iter_countConnect st a, iter_head st a⟩⟩
  · intro i t n k h
    apply List.getElem?_eq_none
    rw [hbTimes_length]
    exact h
  · intro st ms msgs cr
    rw [iter_ok_trace]
    apply List.mem_append_left
    apply List.mem_append_right
    simp

/-- Witness for C3: a scheduler stopped after one iteration makes no
send at index 2. -/
theorem C3_stop_and_cancel_witness :
    (hbTimes (heartbeatInterval 41250) 0 1)[2]? = none :=
  C3_stop_and_cancel.1 (heartbeatInterval 41250) 0 1 2 (by decide)

/-- Claim C4 counterexample: after one connection failure followed by a
fully successful connection (identify completes, monitoring runs, the
connection closes normally), the retry counter is still 1, not 0 — the
code never resets `retry_count` after a successful identify. -/
theorem C4_no_reset_cex :
    ((run st0 [.fail .atConnect, .ok 41250 [] false]).2).retryCount = 1
    ∧ (1 : Nat) ≠ 0 := by
  decide

/-- Claim C4 (amended): `retry_count` is never reset: an iteration whose
identify and monitoring complete without a new error leaves it
unchanged, and it never decreases across a run, so the 5-attempt cap
applies to cumulative connection failures over the whole run rather than
to consecutive ones — one early failure, then a successful session, then
four more failures still exhausts the cap. -/
theorem C4_retry_never_reset :
    (∀ (st : St) (ms : Nat) (msgs : List Msg),
      ((iterActions st (.ok ms msgs false)).2).retryCount = st.retryCount)
    ∧ (∀ (script : List ConnAttempt) (st : St),
        st.retryCount ≤ (run st script).2.retryCount)
    ∧ Action.reportExhaustion
        ∈ (run st0 [.fail .atConnect, .ok 41250 [] false, .fail .atConnect,
            .fail .atConnect, .fail .atConnect, .fail .atConnect]).1 := by
  refine ⟨?_, run_retry_mono, by decide⟩
  intro st ms msgs
  rw [iter_ok_state]
  simp

/-- Claim C5 counterexample: a heartbeat-ACK message (op 11) carrying
s = 42 does not update `last_sequence`, because the `continue` at op 11
precedes the update; and two updating messages with s = 5 then s = 3
leave `last_sequence` at 3, strictly below the earlier value 5 — the
code enforces no monotonicity. -/
theorem C5_seq_cex :
    (monitorRun (some 0) [Msg.mk 11 (some 42)]).2.1 = some 0
    ∧ (monitorRun none [Msg.mk 0 (some 5)]).2.1 = some 5
    ∧ (monitorRun none [Msg.mk 0 (some 5), Msg.mk 0 (some 3)]).2.1 = some 3
    ∧ ¬ ((5 : Int) ≤ 3) := by
  decide

/-- Claim C5 (amended): within the monitoring loop `last_sequence` is
written exactly by the processed messages with a non-null s field whose
opcode is neither 11 (skipped by the continue) nor 7 (the break, which
also stops processing); its final value is the last such write, or the
initial value when there is none; and no iteration of
`maintain_presence` modifies `last_sequence` other than through the
monitoring loop.  No monotonicity is enforced beyond what the server
sends. -/
theorem C5_seq_updates :
    (∀ (msgs : List Msg) (s : Option Int),
      (monitorRun s msgs).2.1 = lastUpd s (seqUpdates msgs))
    ∧ (∀ (st : St) (ms : Nat) (msgs : List Msg) (cr : Bool),
        ((iterActions st (.ok ms msgs cr)).2).lastSeq
          = (monitorRun st.lastSeq msgs).2.1)
    ∧ (∀ (st : St) (p : FailPoint),
        ((iterActions st (.fail p)).2).lastSeq = st.lastSeq) := by
  refine ⟨monitorRun_seq, ?_, ?_⟩
  · intro st ms msgs cr
    rw [iter_ok_state]
  · intro st p
    cases p <;> rfl

/-- Claim C6: when the monitoring loop receives an op-7 (reconnect)
message, processing stops there (later messages are untouched), the
heartbeat task is cancelled and the session closed, the retry counter is
left unchanged — a graceful reconnect consumes no attempt — and, the
counter still being below the cap, the run proceeds directly to a new
connection attempt. -/
theorem C6_op7_graceful_reconnect
    (st : St) (ms : Nat) (pre : List Msg) (m : Msg) (post : List Msg)
    (a : ConnAttempt) (rest : List ConnAttempt)
    (h1 : st.retryCount < maxRetries) (h2 : st.shutdown = false)
    (hm : m.op = 7) (hpre : ∀ x ∈ pre, x.op ≠ 7) :
    ((iterActions st (.ok ms (pre ++ m :: post) false)).2).retryCount = st.retryCount
    ∧ (iterActions st (.ok ms (pre ++ m :: post) false)).1
        = [Action.connect, Action.recvHello ms, Action.send 2, Action.send 3,
           Action.startHB]
          ++ (pre.map Action.recvMsg ++ [Action.recvMsg m])
          ++ [Action.cancelHB, Action.closeSession]
    ∧ (run st (.ok ms (pre ++ m :: post) false :: a :: rest)).1
        = (iterActions st (.ok ms (pre ++ m :: post) false)).1
          ++ (run ((iterActions st (.ok ms (pre ++ m :: post) false)).2) (a :: rest)).1
    ∧ (run ((iterActions st (.ok ms (pre ++ m :: post) false)).2) (a :: rest)).1.head?
        = some Action.connect := by
  obtain ⟨hacts, _⟩ := monitorRun_break pre st.lastSeq m post hm hpre
  have hretry :
      ((iterActions st (.ok ms (pre ++ m :: post) false)).2).retryCount
        = st.retryCount := by
    rw [iter_ok_state]
    simp
  have hshut :
      ((iterActions st (.ok ms (pre ++ m :: post) false)).2).shutdown = false := by
    rw [iter_shutdown]
    exact h2
  refine ⟨hretry, ?_, ?_, ?_⟩
  · rw [iter_ok_trace, hacts]
    simp
  · rw [run_cons st _ (a :: rest) h1 h2]
  · exact run_head _ a rest (by rw [hretry]; exact h1) hshut

/-- Witness for C6: one ordinary message followed by an op-7 message, on
a fresh client state. -/
theorem C6_op7_graceful_reconnect_witness :
    ((iterActions st0 (.ok 41250 ([Msg.mk 0 (some 1)] ++ Msg.mk 7 none :: []) false)).2).retryCount
      = st0.retryCount :=
  (C6_op7_graceful_reconnect st0 41250 [Msg.mk 0 (some 1)] (Msg.mk 7 none) []
    (ConnAttempt.fail FailPoint.atConnect) [] (by decide) rfl rfl (by decide)).1

/-- Claim C7 counterexample: a connection can fail between the two
handshake sends: `_send_auth` (main.py 137) completes, so the op-2
identify frame is transmitted, and `_send_custom_status` (138) then
raises, the exception landing in the outer handler (169).  That new
gateway connection sends one identify and zero presence updates, so it
is not the case that every new gateway connection sends exactly one of
each. -/
theorem C7_partial_handshake_cex :
    (run st0 [.fail (.atSendStatus 41250)]).1
      = [Action.connect, Action.recvHello 41250, Action.send 2,
         Action.closeSession, Action.sleep 5]
    ∧ countSend 2 (run st0 [.fail (.atSendStatus 41250)]).1 = 1
    ∧ countSend 3 (run st0 [.fail (.atSendStatus 41250)]).1 = 0 := by
  decide

/-- Claim C7 (amended): on every gateway connection that completes its
handshake, exactly one identify (op 2) and exactly one presence update
(op 3) are sent, strictly in that order, synchronously before the
monitoring receive loop begins — the iteration trace starts with
connect, hello, the op-2 send, the op-3 send, the heartbeat-task start,
and its monitoring segment consists of receive actions only — and this
repeats on every reconnect.  A connection that fails between the two
sends transmits the identify but no presence update, so the guarantee on
an arbitrary connection attempt is a bound, not an equality: at most one
identify per attempt and never a presence update without its identify;
across any whole run, op-3 sends ≤ op-2 sends ≤ connection attempts. -/
theorem C7_identify_presence_order :
    (∀ (st : St) (ms : Nat) (msgs : List Msg) (cr : Bool),
      countSend 2 (iterActions st (.ok ms msgs cr)).1 = 1
      ∧ countSend 3 (iterActions st (.ok ms msgs cr)).1 = 1
      ∧ (iterActions st (.ok ms msgs cr)).1.take 5
          = [Action.connect, Action.recvHello ms, Action.send 2, Action.send 3,
             Action.startHB]
      ∧ (∀ x ∈ (monitorRun st.lastSeq msgs).1, ∃ m, x = Action.recvMsg m))
    ∧ (∀ (st : St) (a : ConnAttempt),
        countSend 3 (iterActions st a).1 ≤ countSend 2 (iterActions st a).1
        ∧ countSend 2 (iterActions st a).1 ≤ 1)
    ∧ (∀ (script : List ConnAttempt) (st : St),
        countSend 3 (run st script).1 ≤ countSend 2 (run st script).1
        ∧ countSend 2 (run st script).1 ≤ countConnect (run st script).1) := by
  refine ⟨?_, fun st a => ⟨iter_send3_le_send2 st a, iter_send2_le_one st a⟩,
    fun script st => ⟨run_send3_le_send2 script st, run_send2_le_connect script st⟩⟩
  intro st ms msgs cr
  refine ⟨iter_ok_countSend2 st ms msgs cr, iter_ok_countSend3 st ms msgs cr, ?_,
    fun x hx => monitorRun_acts msgs st.lastSeq x hx⟩
  rw [iter_ok_trace]
  rfl

/-- Witness for C7 on a concrete handshake and monitoring message. -/
theorem C7_identify_presence_order_witness :
    countSend 2 (iterActions st0 (.ok 41250 [Msg.mk 0 (some 1)] false)).1 = 1
    ∧ ∃ m, Action.recvMsg (Msg.mk 0 (some 1)) = Action.recvMsg m :=
  ⟨(C7_identify_presence_order.1 st0 41250 [Msg.mk 0 (some 1)] false).1,
   (C7_identify_presence_order.1 st0 41250 [Msg.mk 0 (some 1)] false).2.2.2
     (Action.recvMsg (Msg.mk 0 (some 1))) (by decide)⟩

/-- Claim C9 evaluated at the failing input: the `backoff` decorator on
`validate_token` declares up to 5 tries on `aiohttp.ClientError`, but
the body catches that very exception and returns False, so the decorator
never observes a failure.  A run whose first attempt fails returns False
after exactly one call even when a retry would have succeeded — even
with four more outcomes available — and `main` then returns before
`maintain_presence` is ever called. -/
theorem C9_validate_swallows_retry :
    validateToken [ReqOutcome.clientError, ReqOutcome.ok] = some (Except.ok false, 1)
    ∧ validateToken [ReqOutcome.clientError, ReqOutcome.clientError,
        ReqOutcome.clientError, ReqOutcome.clientError, ReqOutcome.ok]
        = some (Except.ok false, 1)
    ∧ mainSteps false true true = [MainStep.validate]
    ∧ MainStep.presence ∉ mainSteps false true true := by
  refine ⟨rfl, rfl, rfl, by decide⟩

/-- Claim C10 evaluated at the failing input: a 400 response makes
`update_display_name` return False after a single call (non-fatal,
logged, skipped), but a non-400 failure also returns False after a
single call — the `except aiohttp.ClientError` clause swallows the
exception, so the 3-try backoff decorator never retries; in every
outcome `main` still reaches `maintain_presence`. -/
theorem C10_update_name_no_retry :
    updateDisplayName [PatchOutcome.badRequest, PatchOutcome.ok]
        = some (Except.ok false, 1)
    ∧ updateDisplayName [PatchOutcome.httpError, PatchOutcome.ok]
        = some (Except.ok false, 1)
    ∧ updateDisplayName [PatchOutcome.connError, PatchOutcome.ok]
        = some (Except.ok false, 1)
    ∧ MainStep.presence ∈ mainSteps true true true
    ∧ MainStep.presence ∈ mainSteps true true false := by
  refine ⟨rfl, rfl, rfl, by decide, by decide⟩

end OnlineForever
